import Mathlib

/-!
Verification of `bokeh/util/serialization.py` (serialization helpers).

This file shallowly embeds the module's data model and operations:

* NumPy dtypes are an enumeration `Dtype` with their kind characters
  (`f`/`u`/`i`/`b`/`O`/`M`/`m`) mirrored by `DtypeKind`.
* IEEE-754 double values are modelled by `JFloat`: a finite rational, or one
  of the non-finite values NaN, +Inf, -Inf.  Lean's `Float` is not used
  because its arithmetic does not reduce in the kernel; the embedding only
  needs exact values and the non-finite distinctions.
* NumPy arrays are `NDArray`: a dtype, a flat element list, an optional
  validity mask (`np.ma.MaskedArray`), a shape, and a C-contiguity flag.
  Temporal elements (`datetime64`/`timedelta64`) are held at microsecond
  precision, the unit the source casts to before converting.
* Fallible operations return `Except String`.
-/

/-- NumPy dtype kind characters: f (float), u (unsigned int), i (int),
b (bool), O (object), M (datetime64), m (timedelta64). -/
inductive DtypeKind where
  | f | u | i | b | O | M | m
  deriving DecidableEq, Repr

/-- The NumPy dtypes that appear in the module (the binary whitelist plus the
dtypes the spec names as ineligible). -/
inductive Dtype where
  | float16 | float32 | float64
  | uint8 | int8 | uint16 | int16 | uint32 | int32 | uint64 | int64
  | bool_ | object_
  | datetime64 | timedelta64
  deriving DecidableEq, Repr

/-- The kind character of a dtype, as NumPy's `dtype.kind`. -/
def Dtype.kind : Dtype → DtypeKind
  | .float16 | .float32 | .float64 => .f
  | .uint8 | .uint16 | .uint32 | .uint64 => .u
  | .int8 | .int16 | .int32 | .int64 => .i
  | .bool_ => .b
  | .object_ => .O
  | .datetime64 => .M
  | .timedelta64 => .m

/-- `dtype.itemsize`: the element width in bytes. -/
def Dtype.itemsize : Dtype → Nat
  | .float16 => 2
  | .float32 => 4
  | .float64 => 8
  | .uint8 | .int8 | .bool_ => 1
  | .uint16 | .int16 => 2
  | .uint32 | .int32 => 4
  | .uint64 | .int64 | .object_ => 8
  | .datetime64 | .timedelta64 => 8

/-- IEEE-754 double values: a finite value (exact rational) or one of the
non-finite values.  NaN, +Inf and -Inf are explicit constructors, so the
non-reflexivity of IEEE equality at NaN is representable. -/
inductive JFloat where
  | finite (q : ℚ)
  | nan
  | inf
  | neginf
  deriving DecidableEq, Repr

/-- IEEE-754 `==` on doubles: NaN compares unequal to everything, including
itself; other values compare by value. -/
def floatEq : JFloat → JFloat → Bool
  | .nan, _ => false
  | _, .nan => false
  | .finite a, .finite b => a == b
  | .inf, .inf => true
  | .neginf, .neginf => true
  | _, _ => false

/-- Array element values.  `vint` carries integer elements (for temporal
dtypes: the count in microseconds).  `vdate` is a Python `datetime.date`
(days since epoch), `vdatetime` a naive `datetime.datetime` (microseconds
since epoch); both may sit in object-dtype arrays.  `vraw` is a raw element
bit pattern as produced by `np.frombuffer`. -/
inductive Val where
  | vfloat (x : JFloat)
  | vint (n : Int)
  | vstr (s : String)
  | vdate (days : Int)
  | vdatetime (us : Int)
  | vnone
  | vraw (bits : Nat)
  deriving DecidableEq, Repr, Inhabited

/-- A NumPy array: dtype, flat element data, optional validity mask
(`some` exactly for `np.ma.MaskedArray`), shape, C-contiguity flag. -/
structure NDArray where
  dtype : Dtype
  data : List Val
  mask : Option (List Bool)
  shape : List Nat
  contiguous : Bool
  deriving DecidableEq, Repr

/-- `BINARY_ARRAY_TYPES`: the fixed whitelist of dtypes that may be binary
encoded (serialization.py lines 80-89). -/
def BINARY_ARRAY_TYPES : List Dtype :=
  [.float32, .float64, .uint8, .int8, .uint16, .int16, .uint32, .int32]

/-- `array_encoding_disabled(array)`: binary encoding is disabled for
dtypes outside `BINARY_ARRAY_TYPES` (serialization.py line 317:
`return array.dtype not in BINARY_ARRAY_TYPES`). -/
def array_encoding_disabled (array : NDArray) : Bool :=
  ! BINARY_ARRAY_TYPES.contains array.dtype

/-!
Runtime types for `isinstance`-based dispatch.  `PyType` is the runtime type
of a scalar value; `isSubclass` records the library subclass relations that
the `isinstance` checks in the source depend on:
`pd.Timestamp <: dt.datetime <: dt.date`, `NaTType <: dt.datetime`, and
`pd.Timedelta <: dt.timedelta`.
-/

/-- Runtime types of the scalar values the module dispatches on.
`natType` is `type(pd.NaT)`. -/
inductive PyType where
  | date | time | datetime | timestamp | natType
  | datetime64 | timedelta | pdTimedelta | timedelta64 | period
  | other
  deriving DecidableEq, Repr

/-- Proper-subclass pairs among the recognized runtime types. -/
def properSubclass : PyType → PyType → Bool
  | .datetime, .date => true
  | .timestamp, .datetime => true
  | .timestamp, .date => true
  | .natType, .datetime => true
  | .natType, .date => true
  | .pdTimedelta, .timedelta => true
  | _, _ => false

/-- `issubclass`, reflexively closed. -/
def isSubclass (t u : PyType) : Bool :=
  t == u || properSubclass t u

/-- `isinstance(obj, u)` for an object whose runtime type is `t`. -/
def isinstance (t u : PyType) : Bool :=
  isSubclass t u

/-- `_compute_datetime_types()` (serialization.py lines 64-73): the set
{dt.time, dt.datetime, np.datetime64}, extended with
{pd.Timestamp, pd.Timedelta, pd.Period, type(pd.NaT)} when the optional
pandas dependency is present. -/
def _compute_datetime_types (pd : Bool) : List PyType :=
  [.time, .datetime, .datetime64]
    ++ (if pd then [.timestamp, .pdTimedelta, .period, .natType] else [])

/-- `is_datetime_type(obj)` (serialization.py lines 126-139):
`isinstance(obj, tuple(_compute_datetime_types()))`.  The argument is the
runtime type of the tested object. -/
def is_datetime_type (pd : Bool) (obj : PyType) : Bool :=
  (_compute_datetime_types pd).any (fun t => isinstance obj t)

/-- `is_timedelta_type(obj)` (serialization.py lines 141-151):
`isinstance(obj, (dt.timedelta, np.timedelta64))`. -/
def is_timedelta_type (obj : PyType) : Bool :=
  isinstance obj .timedelta || isinstance obj .timedelta64

/-!
Scalar temporal conversion.  Scalar arguments carry the payload each branch
of the source reads:

* `timestamp`/`pdTimedelta` carry `.value`, the count in nanoseconds;
* `period` carries `to_timestamp().value` in nanoseconds;
* `datetime` is naive, in microseconds since the Unix epoch (`DT_EPOCH`);
* `date` is in days since the epoch;
* `datetime64` carries its exact epoch offset in milliseconds (the value of
  `(obj - NP_EPOCH) / NP_MS_DELTA`), and `timedelta64` its exact duration
  in milliseconds (the value of `obj / NP_MS_DELTA`);
* `timedelta` carries the days/seconds/microseconds fields of a native
  `dt.timedelta`;
* `other` stands for any unrecognized value, identified by a tag.
-/

/-- Scalar arguments accepted by `convert_datetime_type`. -/
inductive DatetimeArg where
  | nat_
  | period (tsValue : Int)
  | timestamp (value : Int)
  | pdTimedelta (value : Int)
  | datetime (us : Int)
  | date (days : Int)
  | datetime64 (ms : ℚ)
  | time (h : Nat) (m : Nat) (s : Nat) (us : Nat)
  | other (tag : String)
  deriving DecidableEq, Repr

/-- Scalar arguments accepted by `convert_timedelta_type`. -/
inductive TimedeltaArg where
  | timedelta (days : Int) (seconds : Int) (microseconds : Int)
  | timedelta64 (ms : ℚ)
  | other (tag : String)
  deriving DecidableEq, Repr

/-- `timedelta.total_seconds()`: exact total seconds of a native timedelta. -/
def total_seconds (days seconds microseconds : Int) : ℚ :=
  (days * 86400 + seconds : ℚ) + (microseconds : ℚ) / 10 ^ 6

/-- `convert_date_to_datetime(obj)` (serialization.py lines 153-163):
the date at midnight, minus `DT_EPOCH`, in total seconds times 1000. -/
def convert_date_to_datetime (days : Int) : ℚ :=
  (days * 86400 : ℚ) * 1000

/-- `convert_timedelta_type(obj)` (serialization.py lines 165-181):
native timedelta to `total_seconds() * 1000.`, `np.timedelta64` to
`float(obj / NP_MS_DELTA)`, otherwise `ValueError`. -/
def convert_timedelta_type (obj : TimedeltaArg) : Except String JFloat :=
  match obj with
  | .timedelta d s us => .ok (.finite (total_seconds d s us * 1000))
  | .timedelta64 ms => .ok (.finite ms)
  | .other tag => .error ("unknonw timedelta object: " ++ tag)

/-- `convert_datetime_type(obj)` (serialization.py lines 184-232), with the
presence of the optional pandas dependency as `pd`.  Branches in source
order: pandas NaT, Period, Timestamp and Timedelta (guarded by `pd`), then
native datetime, date, `np.datetime64`, time, then `ValueError`.  The
pandas-typed arguments cannot arise at runtime when `pd` is false. -/
def convert_datetime_type (pd : Bool) (obj : DatetimeArg) : Except String JFloat :=
  match pd, obj with
  | true, .nat_ => .ok .nan
  | true, .period ts => .ok (.finite ((ts : ℚ) / 10 ^ 6))
  | true, .timestamp v => .ok (.finite ((v : ℚ) / 10 ^ 6))
  | true, .pdTimedelta v => .ok (.finite ((v : ℚ) / 10 ^ 6))
  | _, .datetime us => .ok (.finite ((us : ℚ) / 10 ^ 6 * 1000))
  | _, .date days => .ok (.finite (convert_date_to_datetime days))
  | _, .datetime64 ms => .ok (.finite ms)
  | _, .time h m s us => .ok (.finite (((h * 3600 + m * 60 + s) * 1000 : ℚ) + (us : ℚ) / 1000))
  | _, _ => .error "unknown datetime object"

/-!
Array transforms (serialization.py lines 235-368).
-/

/-- A value that may or may not be a NumPy array, for
`convert_datetime_array`'s `isinstance(array, np.ndarray)` check.
Non-array values are opaque, identified by a tag. -/
inductive PyObj where
  | ndarray (a : NDArray)
  | other (tag : String)
  deriving DecidableEq, Repr

/-- `isinstance(array[0], dt.date)`: `dt.datetime` is a subclass of
`dt.date`, so both object variants qualify. -/
def isDateInstance : Val → Bool
  | .vdate _ => true
  | .vdatetime _ => true
  | _ => false

/-- The value of an object-array element cast by
`astype('datetime64[us]')`, when the cast succeeds: dates land at midnight. -/
def date_to_dt64_us : Val → Option Int
  | .vdate days => some (days * 86400000000)
  | .vdatetime us => some us
  | _ => none

/-- The element map of `astype('datetime64[us]').astype('int64') / 1000.0`
for a temporal array whose elements are microsecond counts. -/
def us_int64_div_1000 : Val → Val
  | .vint us => .vfloat (.finite ((us : ℚ) / 1000))
  | v => v

/-- `array.astype('datetime64[us]').astype('int64') / 1000.0` on an
object array of dates: succeeds when every element casts, otherwise the
source's bare `except` swallows the failure. -/
def try_datetime_cast (data : List Val) : Option (List Val) :=
  if data.all (fun v => (date_to_dt64_us v).isSome) then
    some (data.map (fun v =>
      match date_to_dt64_us v with
      | some us => Val.vfloat (.finite ((us : ℚ) / 1000))
      | none => v))
  else none

/-- `convert_datetime_array(array)` (serialization.py lines 235-266):
non-arrays are returned as-is; datetime64/timedelta64 arrays are cast to
microseconds then to int64 and divided by 1000.0 (float64 result); object
arrays whose first element is a date get a best-effort cast that falls back
to the unchanged array on failure. -/
def convert_datetime_array (x : PyObj) : PyObj :=
  match x with
  | .other v => .other v
  | .ndarray array =>
    .ndarray <|
      if array.dtype.kind = .M then
        { array with dtype := .float64, data := array.data.map us_int64_div_1000 }
      else if array.dtype.kind = .m then
        { array with dtype := .float64, data := array.data.map us_int64_div_1000 }
      else if array.dtype.kind = .O ∧ array.data.length > 0
          ∧ isDateInstance array.data.headI then
        match try_datetime_cast array.data with
        | some newData => { array with dtype := .float64, data := newData }
        | none => array
      else array

/-- `convert_datetime_array` restricted to arrays (the only case
`transform_array` exercises). -/
def convert_datetime_array_nd (array : NDArray) : NDArray :=
  match convert_datetime_array (.ndarray array) with
  | .ndarray b => b
  | .other _ => array

/-- `array.filled(np.nan)` on a masked array: masked positions become NaN
and the mask is dropped. -/
def ma_filled_nan (array : NDArray) : NDArray :=
  match array.mask with
  | some msk =>
    { array with
      data := List.zipWith (fun v b => if b then Val.vfloat .nan else v) array.data msk,
      mask := none }
  | none => array

/-- `np.ascontiguousarray(array)`: a C-contiguous copy. -/
def np_ascontiguousarray (array : NDArray) : NDArray :=
  { array with contiguous := true }

/-- `transform_array(array)` (serialization.py lines 324-344): datetime
normalization, then masked-value filling with NaN, then contiguity
enforcement. -/
def transform_array (array : NDArray) : NDArray :=
  let array := convert_datetime_array_nd array
  let array := if array.mask.isSome then ma_filled_nan array else array
  if array.contiguous = false then np_ascontiguousarray array else array

/-- `np.isfinite`, elementwise (integer elements are always finite). -/
def npIsFinite : Val → Bool
  | .vfloat (.finite _) => true
  | .vfloat _ => false
  | _ => true

/-- `np.isnan`, elementwise. -/
def npIsNan : Val → Bool
  | .vfloat .nan => true
  | _ => false

/-- `np.isposinf`, elementwise. -/
def npIsPosInf : Val → Bool
  | .vfloat .inf => true
  | _ => false

/-- `np.isneginf`, elementwise. -/
def npIsNegInf : Val → Bool
  | .vfloat .neginf => true
  | _ => false

/-- `pd.isnull`, elementwise on object arrays: `None` and NaN are null. -/
def pd_isnull : Val → Bool
  | .vnone => true
  | .vfloat .nan => true
  | _ => false

/-- `transform_array_to_list(array)` (serialization.py lines 346-368).
The three masked assignments index `transformed` with masks computed from
the original `array`, hence the `zipWith`s against `array.data`. -/
def transform_array_to_list (pd : Bool) (array : NDArray) : List Val :=
  if (array.dtype.kind = .u ∨ array.dtype.kind = .i ∨ array.dtype.kind = .f)
      ∧ (array.data.any (fun v => ! npIsFinite v)) then
    let transformed := array.data
    let transformed := List.zipWith
      (fun orig cur => if npIsNan orig then Val.vstr "NaN" else cur) array.data transformed
    let transformed := List.zipWith
      (fun orig cur => if npIsPosInf orig then Val.vstr "Infinity" else cur) array.data transformed
    let transformed := List.zipWith
      (fun orig cur => if npIsNegInf orig then Val.vstr "-Infinity" else cur) array.data transformed
    transformed
  else if array.dtype.kind = .O ∧ pd ∧ array.data.any pd_isnull then
    array.data.map (fun v => if pd_isnull v then Val.vstr "NaN" else v)
  else
    array.data

/-!
Binary buffer codec (serialization.py lines 118-124 and 390-414).
-/

/-- Byte order tag of a buffer envelope. -/
inductive ByteOrder where
  | little | big
  deriving DecidableEq, Repr

/-- The `array` field of a `BufferJson`: either a by-reference `Ref` (an
opaque id) or an inline base64 string. -/
inductive BufferData where
  | ref (id : String)
  | b64 (s : String)
  deriving DecidableEq, Repr

/-- `BufferJson` (serialization.py lines 120-124): the wire envelope of a
binary array transfer.  The `dtype` string tag is carried as the parsed
`Dtype`. -/
structure BufferJson where
  array : BufferData
  shape : List Nat
  dtype : Dtype
  order : ByteOrder
  deriving DecidableEq, Repr

/-- Value of a base64 alphabet character. -/
def b64CharVal (c : Char) : Option Nat :=
  if 'A' ≤ c ∧ c ≤ 'Z' then some (c.toNat - 65)
  else if 'a' ≤ c ∧ c ≤ 'z' then some (c.toNat - 97 + 26)
  else if '0' ≤ c ∧ c ≤ '9' then some (c.toNat - 48 + 52)
  else if c = '+' then some 62
  else if c = '/' then some 63
  else none

/-- Decode a run of 6-bit groups (padding already stripped) into bytes:
every full quad yields three bytes, a trailing pair or triple yields one or
two bytes. -/
def b64DecodeGroups : List Nat → List Nat
  | a :: b :: c :: d :: rest =>
    (a * 4 + b / 16) :: ((b % 16) * 16 + c / 4) :: ((c % 4) * 64 + d)
      :: b64DecodeGroups rest
  | [a, b] => [a * 4 + b / 16]
  | [a, b, c] => [a * 4 + b / 16, (b % 16) * 16 + c / 4]
  | _ => []

/-- `base64.b64decode(s)`: characters outside the alphabet are discarded
(`validate=False`), the remaining length must be a multiple of 4
(`Incorrect padding` otherwise), and the data-character count may not be
1 more than a multiple of 4. -/
def b64decode (s : String) : Except String (List Nat) :=
  let cs := s.data.filter (fun c => (b64CharVal c).isSome || c = '=')
  if cs.length % 4 ≠ 0 then .error "Incorrect padding"
  else
    let body := (cs.takeWhile (fun c => c ≠ '=')).filterMap b64CharVal
    if body.length % 4 = 1 then .error "Invalid base64-encoded string"
    else .ok (b64DecodeGroups body)

/-- Assemble one element's bit pattern from its bytes in native
(little-endian) order, as `np.frombuffer` reinterprets raw bytes. -/
def wordOfBytes : List Nat → Nat
  | [] => 0
  | b :: rest => b + 256 * wordOfBytes rest

/-- `np.frombuffer(bytes, dtype=dtype)`: requires the byte count to be a
multiple of the element size and reinterprets each consecutive
`itemsize`-byte group as one element (elements as raw bit patterns). -/
def np_frombuffer (bytes : List Nat) (dtype : Dtype) : Except String (List Val) :=
  if bytes.length % dtype.itemsize ≠ 0 then
    .error "buffer size must be a multiple of element size"
  else
    .ok ((List.range (bytes.length / dtype.itemsize)).map
      (fun i => Val.vraw (wordOfBytes ((bytes.drop (i * dtype.itemsize)).take dtype.itemsize))))

/-- `array.reshape(shape)`: requires the element count to match the shape's
product. -/
def np_reshape (array : NDArray) (shape : List Nat) : Except String NDArray :=
  if shape.prod = array.data.length then .ok { array with shape := shape }
  else .error "cannot reshape array"

/-- `decode_base64_dict(buffer)` (serialization.py lines 390-414):
a by-reference `array` field raises `NotImplementedError`; a base64 string
is decoded, reinterpreted as a flat array of `dtype` (then copied), and
reshaped to `shape` only when `len(shape) > 1`.  The envelope's `order`
field is not consulted, as in the source. -/
def decode_base64_dict (buffer : BufferJson) : Except String NDArray :=
  let data := buffer.array
  let dtype := buffer.dtype
  let shape := buffer.shape
  match data with
  | .b64 s => do
    let bytes ← b64decode s
    let vals ← np_frombuffer bytes dtype
    let array : NDArray :=
      { dtype := dtype, data := vals, mask := none,
        shape := [vals.length], contiguous := true }
    if shape.length > 1 then np_reshape array shape else pure array
  | .ref _ => .error "NotImplementedError: TODO"

/-!
Identifier generator (serialization.py lines 268-299 and 424-425).  The
process-wide counter is passed as explicit state; `str(uuid.uuid4())` is
nondeterministic, so the fresh UUID string is a parameter.
-/

/-- `_simple_id` (serialization.py line 424): the counter's seed. -/
def _simple_id : Nat := 999

/-- `make_globally_unique_id()` (serialization.py lines 289-299):
`str(uuid.uuid4())`. -/
def make_globally_unique_id (uuid4 : String) : String :=
  uuid4

/-- `make_id()` (serialization.py lines 268-287) with the
`settings.simple_ids()` flag and the counter state explicit: in simple-ID
mode the counter is incremented under the lock and its decimal string is
returned; otherwise a globally unique UUID is returned and the counter is
untouched.  Returns the ID and the new counter. -/
def make_id (simple_ids : Bool) (uuid4 : String) (counter : Nat) : String × Nat :=
  if simple_ids then
    let counter := counter + 1
    (toString counter, counter)
  else
    (make_globally_unique_id uuid4, counter)

/-!
Claim-side definitions, for comparison with the source embedding.
-/

/-- The elementwise substitution C5 describes: NaN to "NaN", +Inf to
"Infinity", -Inf to "-Infinity", everything else unchanged. -/
def substNonFinite (v : Val) : Val :=
  match v with
  | .vfloat .nan => .vstr "NaN"
  | .vfloat .inf => .vstr "Infinity"
  | .vfloat .neginf => .vstr "-Infinity"
  | v => v

/-- The datetime-like set exactly as C8's claim words it: native date,
native time, native datetime, the fixed-precision timestamp type, and the
not-a-time sentinel type. -/
def spec_datetime_like (t : PyType) : Bool :=
  ([.date, .time, .datetime, .timestamp, .natType] : List PyType).contains t

/-- A well-formed base64 payload for an envelope: the string decodes, the
byte count is a multiple of the dtype item size, and for a
multi-dimensional shape the element count matches the shape product. -/
def wellFormedPayload (buf : BufferJson) (s : String) : Prop :=
  ∃ bytes, b64decode s = Except.ok bytes
    ∧ bytes.length % buf.dtype.itemsize = 0
    ∧ (buf.shape.length ≤ 1 ∨ buf.shape.prod = bytes.length / buf.dtype.itemsize)

/-- Decidable equality for `Except` results, so concrete runs of the
fallible operations can be checked by `decide`. -/
instance {ε α : Type} [DecidableEq ε] [DecidableEq α] : DecidableEq (Except ε α) :=
  fun x y =>
    match x, y with
    | .ok a, .ok b =>
      if h : a = b then .isTrue (by rw [h])
      else .isFalse (by intro hc; cases hc; exact h rfl)
    | .error e, .error f =>
      if h : e = f then .isTrue (by rw [h])
      else .isFalse (by intro hc; cases hc; exact h rfl)
    | .ok _, .error _ => .isFalse (by intro hc; cases hc)
    | .error _, .ok _ => .isFalse (by intro hc; cases hc)

/-!
Theorems.
-/

/-- C1: binary-transfer eligibility holds iff the dtype is exactly one of
{float32, float64, uint8, int8, uint16, int16, uint32, int32}; eligibility
holds for uint8, int32 and float64 arrays and fails for float16, int64,
bool, object and temporal dtypes, with `array_encoding_disabled` being the
negated predicate. -/
theorem array_encoding_disabled_spec (a : NDArray) :
    (array_encoding_disabled a = false ↔
       a.dtype = .float32 ∨ a.dtype = .float64 ∨ a.dtype = .uint8 ∨ a.dtype = .int8 ∨
       a.dtype = .uint16 ∨ a.dtype = .int16 ∨ a.dtype = .uint32 ∨ a.dtype = .int32)
    ∧ array_encoding_disabled { a with dtype := .uint8 } = false
    ∧ array_encoding_disabled { a with dtype := .int32 } = false
    ∧ array_encoding_disabled { a with dtype := .float64 } = false
    ∧ array_encoding_disabled { a with dtype := .float16 } = true
    ∧ array_encoding_disabled { a with dtype := .int64 } = true
    ∧ array_encoding_disabled { a with dtype := .bool_ } = true
    ∧ array_encoding_disabled { a with dtype := .object_ } = true
    ∧ array_encoding_disabled { a with dtype := .datetime64 } = true
    ∧ array_encoding_disabled { a with dtype := .timedelta64 } = true := by
  refine ⟨?_, rfl, rfl, rfl, rfl, rfl, rfl, rfl, rfl, rfl⟩
  obtain ⟨d, data, mask, shape, contig⟩ := a
  cases d <;> simp [array_encoding_disabled, BINARY_ARRAY_TYPES]

/-- C6: `convert_datetime_type` maps the pandas NaT sentinel to IEEE-754
NaN, and NaN is not equal to itself under IEEE float equality. -/
theorem convert_datetime_type_nat_spec :
    convert_datetime_type true .nat_ = .ok .nan ∧ floatEq .nan .nan = false :=
  ⟨rfl, rfl⟩

/-- C7: `convert_timedelta_type` returns total seconds times 1000 for every
native timedelta, the value divided by one millisecond for every
`np.timedelta64`, and a ValueError for everything else (and only then). -/
theorem convert_timedelta_type_spec :
    (∀ d s us, convert_timedelta_type (.timedelta d s us) =
        .ok (.finite (total_seconds d s us * 1000)))
    ∧ (∀ ms, convert_timedelta_type (.timedelta64 ms) = .ok (.finite ms))
    ∧ (∀ obj, (convert_timedelta_type obj).isOk = false ↔ ∃ tag, obj = .other tag) := by
  refine ⟨fun d s us => rfl, fun ms => rfl, fun obj => ?_⟩
  cases obj <;> simp [convert_timedelta_type, Except.isOk, Except.toBool]

/-- C9: `convert_datetime_array` returns every non-ndarray input unchanged
(identity, not an error). -/
theorem convert_datetime_array_identity_on_non_arrays (tag : String) :
    convert_datetime_array (.other tag) = .other tag :=
  rfl

/-- C10: the simple-ID counter is seeded at 999; in simple-ID mode the
first call to `make_id` returns "1000", and every simple-mode call returns
the decimal string of the previous counter plus one (leaving that value as
the new counter). -/
theorem make_id_spec :
    _simple_id = 999
    ∧ (∀ u, (make_id true u _simple_id).1 = "1000")
    ∧ (∀ u counter, make_id true u counter = (toString (counter + 1), counter + 1)) := by
  refine ⟨rfl, fun u => ?_, fun u counter => rfl⟩
  rfl

/-- C8 counterexample: the claim's recognized set contains native date, but
`is_datetime_type` on a native date value (with pandas present) is false —
`dt.date` is not in `_compute_datetime_types()` and a plain date is not an
instance of any member. -/
theorem is_datetime_type_date_counterexample :
    spec_datetime_like .date = true ∧ is_datetime_type true .date = false := by
  decide

/-- C8 amended: with pandas present, `is_datetime_type` is true iff the
value's runtime type is native time, native datetime (hence also the
fixed-precision timestamp and NaT sentinel types, its subclasses),
`np.datetime64`, the fixed-precision duration type, or the period type —
and not for a plain native date. -/
theorem is_datetime_type_amended (t : PyType) :
    is_datetime_type true t = true ↔
      t = .time ∨ t = .datetime ∨ t = .timestamp ∨ t = .natType
      ∨ t = .datetime64 ∨ t = .pdTimedelta ∨ t = .period := by
  cases t <;> decide

theorem zipWith_self_eq_map (f : Val → Val → Val) (l : List Val) :
    List.zipWith f l l = l.map (fun a => f a a) := by
  induction l with
  | nil => rfl
  | cons x xs ih => simp [List.zipWith, ih]

theorem zipWith_map_right_eq_map (f : Val → Val → Val) (g : Val → Val) (l : List Val) :
    List.zipWith f l (l.map g) = l.map (fun a => f a (g a)) := by
  induction l with
  | nil => rfl
  | cons x xs ih => simp [List.zipWith, ih]

/-- C5: on a numeric-kind array with at least one non-finite element,
`transform_array_to_list` substitutes "NaN" for NaN, "Infinity" for +Inf
and "-Infinity" for -Inf, leaving finite elements unchanged. -/
theorem transform_array_to_list_nonfinite (pd : Bool) (a : NDArray)
    (hk : a.dtype.kind = .u ∨ a.dtype.kind = .i ∨ a.dtype.kind = .f)
    (hnf : a.data.any (fun v => ! npIsFinite v) = true) :
    transform_array_to_list pd a = a.data.map substNonFinite := by
  unfold transform_array_to_list
  rw [if_pos ⟨hk, hnf⟩]
  show List.zipWith (fun orig cur => if npIsNegInf orig then Val.vstr "-Infinity" else cur)
      a.data
      (List.zipWith (fun orig cur => if npIsPosInf orig then Val.vstr "Infinity" else cur)
        a.data
        (List.zipWith (fun orig cur => if npIsNan orig then Val.vstr "NaN" else cur)
          a.data a.data))
    = List.map substNonFinite a.data
  rw [zipWith_self_eq_map, zipWith_map_right_eq_map, zipWith_map_right_eq_map]
  refine List.map_congr_left (fun v _ => ?_)
  cases v with
  | vfloat x => cases x <;> rfl
  | vint n => rfl
  | vstr s => rfl
  | vdate d => rfl
  | vdatetime us => rfl
  | vnone => rfl
  | vraw b => rfl

/-- C5 witness: `transform_array_to_list` on the float64 array
[1.0, NaN, +Inf, -Inf] yields [1.0, "NaN", "Infinity", "-Infinity"]. -/
theorem transform_array_to_list_nonfinite_witness :
    transform_array_to_list true
        { dtype := .float64,
          data := [.vfloat (.finite 1), .vfloat .nan, .vfloat .inf, .vfloat .neginf],
          mask := none, shape := [4], contiguous := true }
      = [.vfloat (.finite 1), .vstr "NaN", .vstr "Infinity", .vstr "-Infinity"] :=
  (transform_array_to_list_nonfinite true
      { dtype := .float64,
        data := [.vfloat (.finite 1), .vfloat .nan, .vfloat .inf, .vfloat .neginf],
        mask := none, shape := [4], contiguous := true }
      (by decide) (by decide)).trans
    (by decide)

theorem try_datetime_cast_length {l l2 : List Val} (h : try_datetime_cast l = some l2) :
    l2.length = l.length := by
  unfold try_datetime_cast at h
  split at h
  · cases h
    simp
  · exact absurd h (by simp)

theorem convert_datetime_array_nd_eq (a : NDArray) :
    convert_datetime_array_nd a =
      if a.dtype.kind = .M then
        { a with dtype := .float64, data := a.data.map us_int64_div_1000 }
      else if a.dtype.kind = .m then
        { a with dtype := .float64, data := a.data.map us_int64_div_1000 }
      else if a.dtype.kind = .O ∧ a.data.length > 0 ∧ isDateInstance a.data.headI then
        match try_datetime_cast a.data with
        | some newData => { a with dtype := .float64, data := newData }
        | none => a
      else a :=
  rfl

theorem convert_datetime_array_nd_fields (a : NDArray) :
    (convert_datetime_array_nd a).mask = a.mask
    ∧ (convert_datetime_array_nd a).contiguous = a.contiguous
    ∧ (convert_datetime_array_nd a).data.length = a.data.length
    ∧ (convert_datetime_array_nd a).dtype.kind ≠ .M
    ∧ (convert_datetime_array_nd a).dtype.kind ≠ .m := by
  rw [convert_datetime_array_nd_eq]
  split_ifs with h1 h2 h3
  · simp [Dtype.kind]
  · simp [Dtype.kind]
  · split
    · next newData heq =>
      simp [Dtype.kind, try_datetime_cast_length heq]
    · exact ⟨rfl, rfl, rfl, h1, h2⟩
  · exact ⟨rfl, rfl, rfl, h1, h2⟩

theorem contiguity_step_fields (c : NDArray) :
    (if c.contiguous = false then np_ascontiguousarray c else c).dtype = c.dtype
    ∧ (if c.contiguous = false then np_ascontiguousarray c else c).mask = c.mask
    ∧ (if c.contiguous = false then np_ascontiguousarray c else c).data = c.data
    ∧ (if c.contiguous = false then np_ascontiguousarray c else c).contiguous = true := by
  cases hcb : c.contiguous
  · simp [hcb, np_ascontiguousarray]
  · simp [hcb, np_ascontiguousarray]

theorem transform_array_eq_of_mask_none {a : NDArray}
    (h : (convert_datetime_array_nd a).mask = none) :
    transform_array a =
      (if (convert_datetime_array_nd a).contiguous = false
       then np_ascontiguousarray (convert_datetime_array_nd a)
       else convert_datetime_array_nd a) := by
  simp [transform_array, h]

theorem transform_array_eq_of_mask_some {a : NDArray}
    (h : (convert_datetime_array_nd a).mask.isSome = true) :
    transform_array a =
      (if (ma_filled_nan (convert_datetime_array_nd a)).contiguous = false
       then np_ascontiguousarray (ma_filled_nan (convert_datetime_array_nd a))
       else ma_filled_nan (convert_datetime_array_nd a)) := by
  simp [transform_array, h]

theorem ma_filled_nan_eq {x : NDArray} {msk : List Bool} (h : x.mask = some msk) :
    ma_filled_nan x =
      { x with
        data := List.zipWith (fun v b => if b then Val.vfloat .nan else v) x.data msk,
        mask := none } := by
  unfold ma_filled_nan
  rw [h]

/-- C2: for every array, `transform_array` yields an array with no temporal
dtype kind, no validity mask (masked positions having been replaced by
NaN), and C-contiguity. -/
theorem transform_array_spec (a : NDArray) :
    (transform_array a).dtype.kind ≠ DtypeKind.M
    ∧ (transform_array a).dtype.kind ≠ DtypeKind.m
    ∧ (transform_array a).mask = none
    ∧ (transform_array a).contiguous = true
    ∧ (∀ msk i, a.mask = some msk → msk.get? i = some true → i < a.data.length →
        (transform_array a).data.get? i = some (Val.vfloat JFloat.nan)) := by
  obtain ⟨hmask, hcontig, hlen, hM, hm⟩ := convert_datetime_array_nd_fields a
  cases hma : a.mask with
  | none =>
    have hbm : (convert_datetime_array_nd a).mask = none := by rw [hmask, hma]
    rw [transform_array_eq_of_mask_none hbm]
    obtain ⟨hd, hmk, hdat, hc⟩ := contiguity_step_fields (convert_datetime_array_nd a)
    refine ⟨?_, ?_, ?_, hc, ?_⟩
    · rw [hd]; exact hM
    · rw [hd]; exact hm
    · rw [hmk, hbm]
    · intro msk i h1
      exact absurd h1 (by simp)
  | some msk0 =>
    have hbm : (convert_datetime_array_nd a).mask = some msk0 := by rw [hmask, hma]
    have hsome : (convert_datetime_array_nd a).mask.isSome = true := by rw [hbm]; rfl
    rw [transform_array_eq_of_mask_some hsome]
    obtain ⟨hd, hmk, hdat, hc⟩ :=
      contiguity_step_fields (ma_filled_nan (convert_datetime_array_nd a))
    have hfe := ma_filled_nan_eq hbm
    refine ⟨?_, ?_, ?_, hc, ?_⟩
    · rw [hd, hfe]; exact hM
    · rw [hd, hfe]; exact hm
    · rw [hmk, hfe]
    · intro msk i h1 h2 h3
      injection h1 with h1
      subst h1
      rw [hdat, hfe]
      have hib : i < (convert_datetime_array_nd a).data.length := by
        rw [hlen]; exact h3
      have hv : (convert_datetime_array_nd a).data.get? i =
          some ((convert_datetime_array_nd a).data.get ⟨i, hib⟩) :=
        List.get?_eq_some.mpr ⟨hib, rfl⟩
      exact (List.get?_zipWith_eq_some _ _ _ _ _).mpr
        ⟨(convert_datetime_array_nd a).data.get ⟨i, hib⟩, true, hv, h2, rfl⟩

/-- C2 witness: a masked, non-contiguous float64 array with its second
position masked transforms to a maskless contiguous array with NaN there. -/
theorem transform_array_spec_witness :
    (transform_array
        { dtype := .float64,
          data := [.vfloat (.finite 1), .vfloat (.finite 2)],
          mask := some [false, true], shape := [2],
          contiguous := false }).data.get? 1 = some (Val.vfloat JFloat.nan) :=
  (transform_array_spec
      { dtype := .float64,
        data := [.vfloat (.finite 1), .vfloat (.finite 2)],
        mask := some [false, true], shape := [2],
        contiguous := false }).2.2.2.2 [false, true] 1 rfl rfl (by decide)

theorem except_bind_ok {α β : Type} (x : α) (f : α → Except String β) :
    (Except.ok x >>= f) = f x :=
  rfl

theorem except_bind_error {α β : Type} (e : String) (f : α → Except String β) :
    ((Except.error e : Except String α) >>= f) = Except.error e :=
  rfl

theorem itemsize_pos (d : Dtype) : 0 < d.itemsize := by
  cases d <;> decide

/-- C3 counterexample: an envelope whose `array` field IS a base64 string
("AA==", one decoded byte) still raises, because one byte is not a multiple
of the float64 item size — refuting "raises only for the by-reference
variant". -/
theorem decode_base64_dict_string_counterexample :
    (decode_base64_dict
        { array := .b64 "AA==", shape := [], dtype := .float64, order := .little }).isOk
      = false := by
  decide

/-- C3 amended: `decode_base64_dict` raises for every by-reference
envelope, and for a base64-string envelope it raises exactly when the
payload is malformed (the string does not base64-decode, the byte count is
not a multiple of the dtype item size, or a multi-dimensional shape's
product differs from the element count); it succeeds precisely on
well-formed base64 envelopes. -/
theorem decode_base64_dict_ok_iff (buf : BufferJson) :
    (decode_base64_dict buf).isOk = true ↔
      ∃ s, buf.array = .b64 s ∧ wellFormedPayload buf s := by
  obtain ⟨bdata, shape, dtype, order⟩ := buf
  cases bdata with
  | ref id =>
    simp [decode_base64_dict, Except.isOk, Except.toBool, wellFormedPayload]
  | b64 s =>
    cases hb : b64decode s with
    | error e =>
      simp [decode_base64_dict, hb, except_bind_error, Except.isOk, Except.toBool,
        wellFormedPayload]
    | ok bytes =>
      by_cases hmod : bytes.length % dtype.itemsize = 0
      · by_cases hsh : shape.length > 1
        · by_cases hprod : shape.prod = bytes.length / dtype.itemsize
          · simp [decode_base64_dict, hb, except_bind_ok, np_frombuffer, hmod, hsh,
              np_reshape, hprod, wellFormedPayload, Except.isOk, Except.toBool]
          · simp [decode_base64_dict, hb, except_bind_ok, np_frombuffer, hmod, hsh,
              np_reshape, hprod, wellFormedPayload, Except.isOk, Except.toBool,
              Nat.not_le.mpr hsh]
        · simp [decode_base64_dict, hb, except_bind_ok, np_frombuffer, hmod, hsh,
            wellFormedPayload, Except.isOk, Except.toBool, Nat.le_of_not_lt hsh]
      · simp only [decode_base64_dict, hb, except_bind_ok]
        rw [show np_frombuffer bytes dtype =
              Except.error "buffer size must be a multiple of element size" from by
            simp [np_frombuffer, hmod]]
        rw [except_bind_error]
        simp [Except.isOk, Except.toBool, wellFormedPayload, hb, hmod]

/-- C4: for a base64-string envelope that decodes successfully, the result
is reshaped to the envelope's shape exactly when that shape has more than
one dimension; for 0- or 1-dimensional shapes the result keeps the flat
shape implied by the decoded byte length and the dtype item size. -/
theorem decode_base64_dict_reshape (buf : BufferJson) (s : String) (bytes : List Nat)
    (arr : NDArray) (hs : buf.array = .b64 s) (hb : b64decode s = .ok bytes)
    (hd : decode_base64_dict buf = .ok arr) :
    arr.shape = if buf.shape.length > 1 then buf.shape
                else [bytes.length / buf.dtype.itemsize] := by
  obtain ⟨bdata, shape, dtype, order⟩ := buf
  simp only at hs
  subst hs
  simp only [decode_base64_dict, hb, except_bind_ok] at hd
  by_cases hmod : bytes.length % dtype.itemsize = 0
  · rw [show np_frombuffer bytes dtype =
          Except.ok ((List.range (bytes.length / dtype.itemsize)).map
            (fun i => Val.vraw
              (wordOfBytes ((bytes.drop (i * dtype.itemsize)).take dtype.itemsize))))
          from by simp [np_frombuffer, hmod],
        except_bind_ok] at hd
    by_cases hsh : shape.length > 1
    · rw [if_pos hsh] at hd
      simp only [np_reshape, List.length_map, List.length_range] at hd
      simp only [hsh, if_true]
      split at hd
      · cases hd
        rfl
      · cases hd
    · rw [if_neg hsh] at hd
      cases hd
      simp [hsh]
  · rw [show np_frombuffer bytes dtype =
          Except.error "buffer size must be a multiple of element size" from by
        simp [np_frombuffer, hmod],
        except_bind_error] at hd
    cases hd

/-- C4 witness: the envelope with base64 payload "AAAA" (three zero bytes),
uint8 dtype and empty shape decodes to a flat array of shape [3]. -/
theorem decode_base64_dict_reshape_witness :
    decode_base64_dict
        { array := .b64 "AAAA", shape := [], dtype := .uint8, order := .little }
      = Except.ok
        { dtype := .uint8, data := [.vraw 0, .vraw 0, .vraw 0], mask := none,
          shape := [3], contiguous := true }
    ∧ ({ dtype := .uint8, data := [.vraw 0, .vraw 0, .vraw 0], mask := none,
          shape := [3], contiguous := true } : NDArray).shape = [3] :=
  ⟨by decide,
    (decode_base64_dict_reshape
        { array := .b64 "AAAA", shape := [], dtype := .uint8, order := .little }
        "AAAA" [0, 0, 0]
        { dtype := .uint8, data := [.vraw 0, .vraw 0, .vraw 0], mask := none,
          shape := [3], contiguous := true }
        rfl (by decide) (by decide)).trans (by decide)⟩
